import Mathlib

/-!
Verification of the authenticated scraping session engine
(`tracing` repository: `src/scraper/session_scraper.py`, `src/scraper/base.py`,
`src/utils/rate_limiter.py`, `app.py`, `scrape_etslink.py`, `scrape_t18.py`).

The Python code is shallowly embedded: parsed HTML documents become lists of
`Element`s in document order, HTTP transport outcomes become an explicit sum
type, and the orchestrator's effectful control flow becomes pure state
passing over abstracted environments.
-/

/-- A parsed HTML element, in document order, as BeautifulSoup exposes it:
tag name, optional `id` attribute, the (multi-valued) `class` attribute,
optional `type`, `name` and `value` attributes, and the stripped text. -/
structure Element where
  tag : String
  id : Option String := none
  classes : List String := []
  typ : Option String := none
  name : Option String := none
  value : Option String := none
  text : String := ""
deriving DecidableEq, Repr

/-- Character-list version of `startsWith`. -/
def leadChars : List Char → List Char → Bool
  | [], _ => true
  | _ :: _, [] => false
  | a :: as, b :: bs => a == b && leadChars as bs

/-- `hasSubChars needle hay`: does `needle` occur contiguously in `hay`?
Embeds Python's `needle in hay` on strings. -/
def hasSubChars (needle : List Char) : List Char → Bool
  | [] => leadChars needle []
  | b :: bs => leadChars needle (b :: bs) || hasSubChars needle bs

/-- Python's `needle in hay` substring test. -/
def strHasSub (needle hay : String) : Bool :=
  hasSubChars needle.toList hay.toList

/-- Python's `str.lower()` (ASCII case suffices for the markers involved). -/
def lowerStr (s : String) : String :=
  ⟨s.data.map Char.toLower⟩

namespace SessionScraper

/-- `soup.find("input", {"type": "password"})` match predicate. -/
def isPasswordInput (e : Element) : Bool :=
  e.tag == "input" && e.typ == some "password"

/-- `soup.find("form", {"id": "loginForm"})` match predicate. -/
def isLoginFormEl (e : Element) : Bool :=
  e.tag == "form" && e.id == some "loginForm"

/-- `class_=lambda x: x and "error" in x.lower()`: BeautifulSoup calls the
lambda on each class value of the multi-valued `class` attribute. -/
def classMatchesError (e : Element) : Bool :=
  e.classes.any (fun c => strHasSub "error" (lowerStr c))

/-- `id=lambda x: x and "error" in x.lower()`. -/
def idMatchesError (e : Element) : Bool :=
  match e.id with
  | some i => strHasSub "error" (lowerStr i)
  | none => false

/-- `soup.find("form", {"id": "loginForm"}) or soup.find("input", {"type": "password"})`
from `SessionScraper.login` / `login_with_details`. -/
def findLoginFormIndicator (page : List Element) : Option Element :=
  match page.find? isLoginFormEl with
  | some e => some e
  | none => page.find? isPasswordInput

/-- The `error_selectors` cascade of `login_with_details`: first non-`None`
among (class contains "error"), (id contains "error"), `div.alert`,
`span.error`, `p.error`; yields that element's stripped text. -/
def errorSelectorsMsg (page : List Element) : Option String :=
  (((((page.find? classMatchesError).orElse
      (fun _ => page.find? idMatchesError)).orElse
      (fun _ => page.find? (fun e => e.tag == "div" && e.classes.contains "alert"))).orElse
      (fun _ => page.find? (fun e => e.tag == "span" && e.classes.contains "error"))).orElse
      (fun _ => page.find? (fun e => e.tag == "p" && e.classes.contains "error"))).map
    (fun e => e.text)

/-- `SessionScraper.login`, from the POST's response page onward
(`None` = no response body): success iff the response page has neither the
`form#loginForm`-or-password-input indicator nor an element whose class
contains "error". -/
def login (result : Option (List Element)) : Bool :=
  match result with
  | none => false
  | some page =>
    (findLoginFormIndicator page).isNone && (page.find? classMatchesError).isNone

/-- `SessionScraper.login_with_details`, from the POST's response page onward:
returns `(success, error message)`; the message is the cascade's text when
non-empty, else the generic message. -/
def login_with_details (result : Option (List Element)) : Bool × Option String :=
  match result with
  | none => (false, some "No response from server")
  | some page =>
    let error_msg := errorSelectorsMsg page
    let login_form := findLoginFormIndicator page
    if login_form.isNone && error_msg.isNone then (true, none)
    else
      (false, some (match error_msg with
        | some m => if m = "" then "Login failed - invalid credentials or session error" else m
        | none => "Login failed - invalid credentials or session error"))

end SessionScraper

section C1Pages

open SessionScraper

/-- A response page consisting only of an (empty) `<form id="loginForm">`:
no password input, no error-style class or id anywhere. -/
def pageLoginFormOnly : List Element :=
  [{ tag := "form", id := some "loginForm" }]

/-- A response page with a password input and an error box. -/
def pageRejected : List Element :=
  [{ tag := "div", classes := ["login-error"], text := "Bad credentials" },
   { tag := "input", typ := some "password", name := some "j_password" }]

example : login (some pageLoginFormOnly) = false := by decide
example : (login_with_details (some pageLoginFormOnly)).1 = false := by decide
example : login_with_details (some pageRejected) = (false, some "Bad credentials") := by decide

end C1Pages

namespace SessionScraper

theorem findLoginFormIndicator_eq_none (page : List Element) :
    findLoginFormIndicator page = none ↔
      page.find? isLoginFormEl = none ∧ page.find? isPasswordInput = none := by
  unfold findLoginFormIndicator
  cases h1 : page.find? isLoginFormEl <;> simp [h1]

theorem login_success_iff (page : List Element) :
    login (some page) = true ↔
      findLoginFormIndicator page = none ∧ page.find? classMatchesError = none := by
  unfold login
  cases h1 : findLoginFormIndicator page <;>
    cases h2 : page.find? classMatchesError <;> simp [h1, h2]

theorem login_with_details_success_iff (page : List Element) :
    (login_with_details (some page)).1 = true ↔
      findLoginFormIndicator page = none ∧ errorSelectorsMsg page = none := by
  unfold login_with_details
  cases h1 : findLoginFormIndicator page <;>
    cases h2 : errorSelectorsMsg page <;> simp [h1, h2]

end SessionScraper

open SessionScraper in
/-- C1 (counterexample): a response page consisting only of a
`<form id="loginForm">` contains neither a password-type input nor any
element matching an error-style class/id (nor a `div.alert`), yet both
`login` and `login_with_details` classify it as Failure — so "Success if and
only if the page contains neither a password-type input nor an error-style
element" is false on the code. -/
theorem c1_counterexample :
    login (some pageLoginFormOnly) = false ∧
    (login_with_details (some pageLoginFormOnly)).1 = false ∧
    pageLoginFormOnly.all (fun e => !isPasswordInput e) = true ∧
    pageLoginFormOnly.all (fun e =>
      !classMatchesError e && !idMatchesError e &&
      !(e.tag == "div" && e.classes.contains "alert")) = true := by
  decide

open SessionScraper in
/-- C1 (amended): login reports Success iff the page contains no
`form#loginForm`, no password-type input, and no error indicator — where
`login` detects error indicators by class containing "error" only, and
`login_with_details` by its full selector cascade; presence of a password
input always yields Failure in both; on Failure, `login_with_details` takes
the message from the cascade's first matching error element when that text
is non-empty, else a generic message; a missing response body is Failure. -/
theorem c1_login_classification (page : List Element) :
    (login (some page) = true ↔
      (page.find? isLoginFormEl = none ∧ page.find? isPasswordInput = none ∧
       page.find? classMatchesError = none)) ∧
    ((login_with_details (some page)).1 = true ↔
      (page.find? isLoginFormEl = none ∧ page.find? isPasswordInput = none ∧
       errorSelectorsMsg page = none)) ∧
    ((∃ e ∈ page, isPasswordInput e = true) →
      login (some page) = false ∧ (login_with_details (some page)).1 = false) ∧
    (∀ m, errorSelectorsMsg page = some m → m ≠ "" →
      (login_with_details (some page)).2 = some m) ∧
    ((login_with_details (some page)).1 = false → errorSelectorsMsg page = none →
      (login_with_details (some page)).2 =
        some "Login failed - invalid credentials or session error") ∧
    login none = false ∧
    login_with_details none = (false, some "No response from server") := by
  refine ⟨?_, ?_, ?_, ?_, ?_, rfl, rfl⟩
  · rw [login_success_iff, findLoginFormIndicator_eq_none, and_assoc]
  · rw [login_with_details_success_iff, findLoginFormIndicator_eq_none, and_assoc]
  · rintro ⟨e, he, hpw⟩
    have hne : page.find? isPasswordInput ≠ none := by
      intro h
      rw [List.find?_eq_none] at h
      exact absurd hpw (by simpa using h e he)
    constructor
    · rcases h : login (some page) with _ | _
      · rfl
      · rw [login_success_iff, findLoginFormIndicator_eq_none] at h
        exact absurd h.1.2 hne
    · rcases h : (login_with_details (some page)).1 with _ | _
      · rfl
      · rw [login_with_details_success_iff, findLoginFormIndicator_eq_none] at h
        exact absurd h.1.2 hne
  · intro m hm hne
    unfold login_with_details
    cases h1 : findLoginFormIndicator page <;> simp [h1, hm, hne]
  · intro hfail hnone
    unfold login_with_details at hfail ⊢
    cases h1 : findLoginFormIndicator page <;> simp [h1, hnone] at hfail ⊢

open SessionScraper in
/-- C1 (witness): the amended classification applied to a concrete rejected
login page containing a password input and an error element. -/
theorem c1_witness :
    login (some pageRejected) = false ∧
    (login_with_details (some pageRejected)).2 = some "Bad credentials" :=
  ⟨((c1_login_classification pageRejected).2.2.1
      ⟨{ tag := "input", typ := some "password", name := some "j_password" },
        by decide, by decide⟩).1,
   (c1_login_classification pageRejected).2.2.2.1 "Bad credentials"
      (by decide) (by decide)⟩

/-- Character-list whitespace trim, embedding `get_text(strip=True)`'s
stripping of a cell's text. -/
def trimChars (l : List Char) : List Char :=
  ((l.dropWhile Char.isWhitespace).reverse.dropWhile Char.isWhitespace).reverse

/-- Python `str.strip()`. -/
def stripStr (s : String) : String :=
  ⟨trimChars s.data⟩

/-- One table cell as `do_scrape` sees it: whether the element is a `<th>`
(header-marked) and its text. -/
structure Cell where
  header : Bool
  text : String
deriving DecidableEq, Repr

/-- One extracted table of `do_scrape`'s `table_data`. -/
structure TableData where
  id : Nat
  headers : List String
  rows : List (List String)
  rowCount : Nat
deriving DecidableEq, Repr

namespace DoScrape

/-- `[td.get_text(strip=True) for td in tr.find_all(["td", "th"])]`. -/
def stripCells (tr : List Cell) : List String :=
  tr.map (fun c => stripStr c.text)

/-- `if cells and any(c for c in cells)`: the row is kept iff it has a cell
and some cell text is non-empty after stripping. -/
def keepRow (tr : List Cell) : Bool :=
  !(stripCells tr).isEmpty && (stripCells tr).any (fun c => c ≠ "")

/-- `tr.find("th")` truthiness: the row contains a header-marked cell. -/
def hasTh (tr : List Cell) : Bool :=
  tr.any (fun c => c.header)

/-- One iteration of `for tr in table.find_all("tr")` in `do_scrape`,
carrying the `(headers, rows)` state. -/
def procRow (st : List String × List (List String)) (tr : List Cell) :
    List String × List (List String) :=
  if keepRow tr then
    if st.1.isEmpty && hasTh tr then (stripCells tr, st.2)
    else (st.1, st.2 ++ [stripCells tr])
  else st

/-- The whole row loop of `do_scrape` for one table, starting from
`rows = []`, `headers = []`; returns `(headers, rows)`. -/
def extractTable (trs : List (List Cell)) : List String × List (List String) :=
  trs.foldl procRow ([], [])

/-- `do_scrape`'s table loop over all tables on the page, with `enumerate`
indices; a table with neither rows nor headers is skipped; `rowCount` is
`len(rows)`. -/
def extract_tables (tables : List (List (List Cell))) : List TableData :=
  tables.enum.filterMap (fun p =>
    let hr := extractTable p.2
    if hr.2.isEmpty && hr.1.isEmpty then none
    else some ⟨p.1, hr.1, hr.2, hr.2.length⟩)

theorem stripCells_ne_nil_of_keepRow {tr : List Cell} (h : keepRow tr = true) :
    stripCells tr ≠ [] := by
  unfold keepRow at h
  intro hnil
  rw [hnil] at h
  simp at h

theorem foldl_procRow_of_ne_nil (trs : List (List Cell)) (h : List String)
    (rows : List (List String)) (hne : h ≠ []) :
    trs.foldl procRow (h, rows) =
      (h, rows ++ (trs.filter keepRow).map stripCells) := by
  induction trs generalizing rows with
  | nil => simp
  | cons tr rest ih =>
    by_cases hk : keepRow tr = true
    · have hstep : procRow (h, rows) tr = (h, rows ++ [stripCells tr]) := by
        unfold procRow
        simp [hk, List.isEmpty_iff, hne]
      rw [List.foldl_cons, hstep, ih (rows ++ [stripCells tr]), List.filter_cons_of_pos hk]
      simp
    · rw [List.foldl_cons]
      have hstep : procRow (h, rows) tr = (h, rows) := by
        unfold procRow
        simp [hk]
      rw [hstep, ih rows, List.filter_cons_of_neg (by simpa using hk)]

/-- The header selected by the loop: the first kept row containing a
header-marked cell, stripped; `[]` when no such row exists. -/
def headersOf (kept : List (List Cell)) : List String :=
  match kept.find? hasTh with
  | some tr => stripCells tr
  | none => []

theorem foldl_procRow_of_nil (trs : List (List Cell)) (rows : List (List String)) :
    trs.foldl procRow ([], rows) =
      (headersOf (trs.filter keepRow),
       rows ++ ((trs.filter keepRow).eraseP hasTh).map stripCells) := by
  induction trs generalizing rows with
  | nil => simp [headersOf]
  | cons tr rest ih =>
    by_cases hk : keepRow tr = true
    · by_cases hth : hasTh tr = true
      · have hstep : procRow ([], rows) tr = (stripCells tr, rows) := by
          unfold procRow
          simp [hk, hth]
        rw [List.foldl_cons, hstep,
          foldl_procRow_of_ne_nil rest (stripCells tr) rows (stripCells_ne_nil_of_keepRow hk),
          List.filter_cons_of_pos hk]
        unfold headersOf
        rw [List.find?_cons_of_pos _ hth, List.eraseP_cons_of_pos hth]
      · have hstep : procRow ([], rows) tr = ([], rows ++ [stripCells tr]) := by
          unfold procRow
          simp [hk, hth]
        rw [List.foldl_cons, hstep, ih (rows ++ [stripCells tr]),
          List.filter_cons_of_pos hk]
        unfold headersOf
        rw [List.find?_cons_of_neg _ (by simpa using hth),
          List.eraseP_cons_of_neg (by simpa using hth)]
        simp
    · rw [List.foldl_cons]
      have hstep : procRow ([], rows) tr = ([], rows) := by
        unfold procRow
        simp [hk]
      rw [hstep, ih rows, List.filter_cons_of_neg (by simpa using hk)]

end DoScrape

open DoScrape in
/-- C2: in static-document mode every all-empty/whitespace row is dropped
(extraction is unchanged by pre-filtering them away), the headers are the
first kept row containing a header-marked cell and that row is excluded
from `rows`, `rowCount` equals `rows.length` for every extracted table, and
the table `[["", ""], ["A", "B"]]` yields `rows = [["A", "B"]]` with
`rowCount = 1`. -/
theorem c2_table_invariant (tables : List (List (List Cell))) (trs : List (List Cell)) :
    extractTable trs = extractTable (trs.filter keepRow) ∧
    (extractTable trs).1 = headersOf (trs.filter keepRow) ∧
    (extractTable trs).2 = ((trs.filter keepRow).eraseP hasTh).map stripCells ∧
    (∀ t ∈ extract_tables tables, t.rowCount = t.rows.length) ∧
    extract_tables [[[⟨false, ""⟩, ⟨false, ""⟩], [⟨false, "A"⟩, ⟨false, "B"⟩]]] =
      [⟨0, [], [["A", "B"]], 1⟩] := by
  have hidem : (trs.filter keepRow).filter keepRow = trs.filter keepRow :=
    List.filter_eq_self.mpr (fun a ha => (List.mem_filter.mp ha).2)
  refine ⟨?_, ?_, ?_, ?_, by decide⟩
  · unfold extractTable
    rw [foldl_procRow_of_nil, foldl_procRow_of_nil, hidem]
  · unfold extractTable
    rw [foldl_procRow_of_nil]
  · unfold extractTable
    rw [foldl_procRow_of_nil]
    simp
  · intro t ht
    unfold extract_tables at ht
    rw [List.mem_filterMap] at ht
    obtain ⟨p, _, hp⟩ := ht
    by_cases hc : ((extractTable p.2).2.isEmpty && (extractTable p.2).1.isEmpty) = true
    · simp only [hc, if_true] at hp
      cases hp
    · simp only [hc, if_false] at hp
      cases hp
      rfl

open DoScrape in
/-- C2 (witness): the extracted table for `[["", ""], ["A", "B"]]` is a
member of the output and satisfies `rowCount = rows.length`. -/
theorem c2_witness :
    (⟨0, [], [["A", "B"]], 1⟩ : TableData) ∈
      extract_tables [[[⟨false, ""⟩, ⟨false, ""⟩], [⟨false, "A"⟩, ⟨false, "B"⟩]]] ∧
    (⟨0, [], [["A", "B"]], 1⟩ : TableData).rowCount =
      (⟨0, [], [["A", "B"]], 1⟩ : TableData).rows.length :=
  ⟨by decide,
   (c2_table_invariant [[[⟨false, ""⟩, ⟨false, ""⟩], [⟨false, "A"⟩, ⟨false, "B"⟩]]]
      []).2.2.2.1 ⟨0, [], [["A", "B"]], 1⟩ (by decide)⟩

/-- Transport-level outcome of one HTTP request attempt by the httpx client:
a response with its status and body, a timeout, or a connection failure. -/
inductive HttpAttempt where
  | ok (status : Nat) (body : String)
  | timeout
  | connError
deriving DecidableEq, Repr

/-- What the `try` block holds after `response.raise_for_status()`: the body
when the final status is 2xx, an `HTTPStatusError` carrying the status
otherwise; transport failures surface as the corresponding httpx
exceptions (all subclasses of `httpx.HTTPError`). -/
inductive FetchOutcome where
  | body (s : String)
  | httpStatusError (status : Nat)
  | timeoutError
  | connectionError
deriving DecidableEq, Repr

/-- `client.get/post(url)` followed by `response.raise_for_status()`. -/
def rawRequest (resp : HttpAttempt) : FetchOutcome :=
  match resp with
  | .ok status body =>
    if 200 ≤ status ∧ status < 300 then .body body else .httpStatusError status
  | .timeout => .timeoutError
  | .connError => .connectionError

/-- The attempt is an HTTP-level failure (error status, timeout or
connection error). -/
def isHttpFailure (resp : HttpAttempt) : Bool :=
  match rawRequest resp with
  | .body _ => false
  | _ => true

namespace SessionScraper

/-- Default of the `timeout` parameter of `SessionScraper.__init__`. -/
def default_timeout : ℚ := 30

/-- `SessionScraper.get`: the `except httpx.HTTPError` clause turns every
HTTP-level failure into `None`. -/
def get (resp : HttpAttempt) : Option String :=
  match rawRequest resp with
  | .body s => some s
  | _ => none

/-- `SessionScraper.post`, same error shape as `get`. -/
def post (resp : HttpAttempt) : Option String :=
  match rawRequest resp with
  | .body s => some s
  | _ => none

/-- `SessionScraper.json_post` / `form_post_json`: HTTP-level failures and
JSON parse failures both become `None`. -/
def json_post {α : Type} (resp : HttpAttempt) (parseJson : String → Except String α) :
    Option α :=
  match rawRequest resp with
  | .body s =>
    match parseJson s with
    | .ok v => some v
    | .error _ => none
  | _ => none

end SessionScraper

namespace WebScraper

/-- `WebScraper.fetch` from `src/scraper/base.py`. -/
def fetch (resp : HttpAttempt) : Option String :=
  match rawRequest resp with
  | .body s => some s
  | _ => none

/-- `WebScraper.fetch_json`: only `httpx.HTTPError` is caught, so a JSON
decode failure on a successful response would propagate (`.error`), while
every HTTP-level failure yields `.ok none`. -/
def fetch_json {α : Type} (resp : HttpAttempt) (parseJson : String → Except String α) :
    Except String (Option α) :=
  match rawRequest resp with
  | .body s =>
    match parseJson s with
    | .ok v => .ok (some v)
    | .error e => .error e
  | _ => .ok none

end WebScraper

/-- C3 (counterexample): a 404 response and a timeout are returned to the
caller of `SessionScraper.get` as the very same `none` — no HTTP error
tagged with the status code is raised to the caller, and no Timeout error
distinct from it is distinguishable. -/
theorem c3_counterexample :
    SessionScraper.get (.ok 404 "Not Found") = none ∧
    SessionScraper.get .timeout = none ∧
    SessionScraper.post (.ok 500 "oops") = none ∧
    SessionScraper.post .timeout = none := by
  decide

/-- C3 (amended): inside `get`/`post` a non-2xx final response does raise an
HTTP status error tagged with the code, and a timeout a distinct Timeout
error, and the session timeout defaults to 30s — but both exceptions are
caught by the `except httpx.HTTPError` clause, so the public `get`/`post`
return `None` to the caller rather than raising. -/
theorem c3_http_error_handling (status : Nat) (b : String) (resp : HttpAttempt) :
    (¬(200 ≤ status ∧ status < 300) →
      rawRequest (.ok status b) = .httpStatusError status) ∧
    rawRequest .timeout = .timeoutError ∧
    (∀ s : Nat, FetchOutcome.timeoutError ≠ .httpStatusError s) ∧
    (isHttpFailure resp = true →
      SessionScraper.get resp = none ∧ SessionScraper.post resp = none) ∧
    SessionScraper.default_timeout = 30 := by
  refine ⟨?_, rfl, ?_, ?_, rfl⟩
  · intro h
    simp [rawRequest, h]
  · intro s h
    cases h
  · intro h
    unfold isHttpFailure at h
    unfold SessionScraper.get SessionScraper.post
    cases hr : rawRequest resp <;> simp [hr] at h ⊢

/-- C3 (witness): the amended statement at status 404 and a timeout. -/
theorem c3_witness :
    rawRequest (.ok 404 "Not Found") = .httpStatusError 404 ∧
    SessionScraper.get .timeout = none := by
  have h := c3_http_error_handling 404 "Not Found" .timeout
  exact ⟨h.1 (by decide), (h.2.2.2.1 (by decide)).1⟩

/-- C10: every public fetch operation of the session client and base
scraper is total with an Option-shaped result — an HTTP-level failure
(error status, timeout, connection error) never propagates as an exception;
the operation returns `None`; and on a 2xx response the body is returned. -/
theorem c10_fetch_totality {α : Type} (resp : HttpAttempt)
    (parseJson : String → Except String α) :
    (isHttpFailure resp = true →
      SessionScraper.get resp = none ∧
      SessionScraper.post resp = none ∧
      SessionScraper.json_post resp parseJson = none ∧
      WebScraper.fetch resp = none ∧
      WebScraper.fetch_json resp parseJson = .ok none) ∧
    (∀ b, rawRequest resp = .body b →
      SessionScraper.get resp = some b ∧
      SessionScraper.post resp = some b ∧
      WebScraper.fetch resp = some b) := by
  constructor
  · intro h
    unfold isHttpFailure at h
    unfold SessionScraper.get SessionScraper.post SessionScraper.json_post
      WebScraper.fetch WebScraper.fetch_json
    cases hr : rawRequest resp <;> simp [hr] at h ⊢
  · intro b hb
    unfold SessionScraper.get SessionScraper.post WebScraper.fetch
    rw [hb]
    exact ⟨rfl, rfl, rfl⟩

/-- C10 (witness): totality at a concrete 503 response and a concrete 200
response, with a concrete JSON parser. -/
theorem c10_witness :
    SessionScraper.get (.ok 503 "unavailable") = none ∧
    SessionScraper.json_post (.ok 503 "unavailable")
      (fun s => Except.ok s.length) = none ∧
    SessionScraper.get (.ok 200 "welcome") = some "welcome" := by
  have h1 := c10_fetch_totality (α := Nat) (.ok 503 "unavailable")
    (fun s => Except.ok s.length)
  have h2 := c10_fetch_totality (α := Nat) (.ok 200 "welcome")
    (fun s => Except.ok s.length)
  exact ⟨(h1.1 (by decide)).1, (h1.1 (by decide)).2.2.1,
    (h2.2 "welcome" (by decide)).1⟩

/-- One anchor element with an `href` attribute, as the link loops see it:
raw `href` and stripped visible text. -/
structure Anchor where
  href : String
  text : String
deriving DecidableEq, Repr

/-- `href.startswith(("javascript:", "#", "mailto:"))`. -/
def isExcludedHref (href : String) : Bool :=
  leadChars "javascript:".data href.data ||
  leadChars "#".data href.data ||
  leadChars "mailto:".data href.data

/-- Python `href.lstrip("/")`. -/
def lstripSlash (href : String) : String :=
  ⟨href.data.dropWhile (fun c => c == '/')⟩

namespace DoScrape

/-- One iteration of the link loop of `do_scrape` (`app.py`): skip anchors
with empty text or href or an excluded pseudo-scheme target; rewrite hrefs
not starting with `http` onto the base URL. -/
def linkOf (base_url : String) (a : Anchor) : Option (String × String) :=
  if a.text ≠ "" ∧ a.href ≠ "" ∧ isExcludedHref a.href = false then
    some (a.text,
      if leadChars "http".data a.href.data then a.href
      else base_url ++ "/" ++ lstripSlash a.href)
  else none

/-- The whole `nav_links` loop of `do_scrape`. -/
def extract_links (base_url : String) (anchors : List Anchor) :
    List (String × String) :=
  anchors.filterMap (linkOf base_url)

end DoScrape

namespace ScrapeT18

/-- One iteration of the link loop of `scrape_t18` (`scrape_t18.py`): same
text/exclusion filter, but the href is recorded unchanged. -/
def linkOf (a : Anchor) : Option (String × String) :=
  if a.text ≠ "" ∧ a.href ≠ "" ∧ isExcludedHref a.href = false then
    some (a.text, a.href)
  else none

/-- The `nav_links` loop of `scrape_t18`. -/
def nav_links (anchors : List Anchor) : List (String × String) :=
  anchors.filterMap linkOf

end ScrapeT18

theorem excluded_false_of_http {href : String}
    (h : leadChars "http".data href.data = true) : isExcludedHref href = false := by
  unfold isExcludedHref
  rcases hl : href.data with _ | ⟨c, cs⟩
  · rw [hl] at h
    exact absurd h (by decide)
  · rw [hl] at h
    have hc : 'h' = c := by
      have hh : "http".data = 'h' :: "ttp".data := rfl
      rw [hh] at h
      unfold leadChars at h
      exact eq_of_beq (Bool.and_elim_left h)
    subst hc
    rw [show "javascript:".data = 'j' :: "avascript:".data from rfl,
        show "#".data = ['#'] from rfl,
        show "mailto:".data = 'm' :: "ailto:".data from rfl]
    simp [leadChars]

/-- C6 (counterexample): the link loop of `scrape_t18` — one of the two
extraction sites the claim covers — keeps the relative href `/about`
unchanged for an anchor with non-empty text; the recorded target does not
even start with `http`, so it is not the absolute rewrite the claim
requires. -/
theorem c6_counterexample :
    ScrapeT18.nav_links [⟨"/about", "About"⟩] = [("About", "/about")] ∧
    leadChars "http".data "/about".data = false := by
  decide

/-- C6 (amended): in the `do_scrape` extraction, an anchor with non-empty
text whose href does not start with `http` is rewritten onto the base URL
(`/about` on base `https://site.example/app` becomes
`https://site.example/app/about`), an href starting with `http` is kept
unchanged, and `javascript:`/`#`/`mailto:` targets are excluded; the
`scrape_t18` loop applies the same non-empty-text and exclusion filter but
records the href unchanged. -/
theorem c6_link_extraction (base_url : String) (a : Anchor) :
    (a.text ≠ "" → leadChars "http".data a.href.data = true →
      DoScrape.linkOf base_url a = some (a.text, a.href)) ∧
    (isExcludedHref a.href = true →
      DoScrape.linkOf base_url a = none ∧ ScrapeT18.linkOf a = none) ∧
    (a.text ≠ "" → a.href ≠ "" → isExcludedHref a.href = false →
      leadChars "http".data a.href.data = false →
      DoScrape.linkOf base_url a =
        some (a.text, base_url ++ "/" ++ lstripSlash a.href) ∧
      ScrapeT18.linkOf a = some (a.text, a.href)) ∧
    (a.text = "" → DoScrape.linkOf base_url a = none ∧ ScrapeT18.linkOf a = none) ∧
    DoScrape.extract_links "https://site.example/app" [⟨"/about", "About"⟩] =
      [("About", "https://site.example/app/about")] := by
  refine ⟨?_, ?_, ?_, ?_, by decide⟩
  · intro htext hhttp
    have hhref : a.href ≠ "" := by
      intro h0
      rw [h0] at hhttp
      exact absurd hhttp (by decide)
    unfold DoScrape.linkOf
    simp [htext, hhref, excluded_false_of_http hhttp, hhttp]
  · intro hexc
    unfold DoScrape.linkOf ScrapeT18.linkOf
    simp [hexc]
  · intro htext hhref hexc hhttp
    unfold DoScrape.linkOf ScrapeT18.linkOf
    simp [htext, hhref, hexc, hhttp]
  · intro htext
    unfold DoScrape.linkOf ScrapeT18.linkOf
    simp [htext]

/-- C6 (witness): the amended statement at the spec's own example anchor
and at an excluded `javascript:` anchor. -/
theorem c6_witness :
    DoScrape.linkOf "https://site.example/app" ⟨"/about", "About"⟩ =
      some ("About", "https://site.example/app/about") ∧
    DoScrape.linkOf "https://site.example/app" ⟨"javascript:void(0)", "Menu"⟩ = none ∧
    DoScrape.linkOf "https://site.example/app"
        ⟨"https://other.example/x", "Other"⟩ =
      some ("Other", "https://other.example/x") := by
  have h1 := c6_link_extraction "https://site.example/app" ⟨"/about", "About"⟩
  have h2 := c6_link_extraction "https://site.example/app" ⟨"javascript:void(0)", "Menu"⟩
  have h3 := c6_link_extraction "https://site.example/app" ⟨"https://other.example/x", "Other"⟩
  refine ⟨?_, (h2.2.1 (by decide)).1, h3.1 (by decide) (by decide)⟩
  have := (h1.2.2.1 (by decide) (by decide) (by decide) (by decide)).1
  simpa [lstripSlash] using this

/-- One `<input>` element of a form: optional `name`, `type`, `value`
attributes. -/
structure InputEl where
  name : Option String := none
  typ : Option String := none
  value : Option String := none
deriving DecidableEq, Repr

/-- One `<form>` element: optional `action` and `method` attributes and its
input elements in document order. -/
structure FormEl where
  action : Option String := none
  method : Option String := none
  inputs : List InputEl := []
deriving DecidableEq, Repr

/-- The `fields` dict built by `get_login_form_fields`. -/
structure FormFields where
  action : String
  method : String
  fields : List (String × String × String)
  hidden_fields : List (String × String)
deriving DecidableEq, Repr

/-- Python dict assignment `d[k] = v`: replace in place if the key exists,
else append. -/
def dictInsert {β : Type} (m : List (String × β)) (k : String) (v : β) :
    List (String × β) :=
  match m with
  | [] => [(k, v)]
  | (k2, v2) :: rest =>
    if k2 = k then (k2, v) :: rest else (k2, v2) :: dictInsert rest k v

namespace SessionScraper

/-- One iteration of `for inp in form.find_all("input")` in
`get_login_form_fields`, over the `(fields, hidden_fields)` state. -/
def procInput (st : List (String × String × String) × List (String × String))
    (inp : InputEl) :
    List (String × String × String) × List (String × String) :=
  match inp.name with
  | none => st
  | some n =>
    let input_type := inp.typ.getD "text"
    let value := inp.value.getD ""
    if input_type = "hidden" then (st.1, dictInsert st.2 n value)
    else (dictInsert st.1 n (input_type, value), st.2)

/-- `SessionScraper.get_login_form_fields`, from the fetched page onward:
`none` embeds the empty dict `{}` returned when the page could not be
fetched or holds no form; otherwise the first form is described. -/
def get_login_form_fields (html : Option (List FormEl)) : Option FormFields :=
  match html with
  | none => none
  | some forms =>
    match forms.head? with
    | none => none
    | some form =>
      let st := form.inputs.foldl procInput ([], [])
      some { action := form.action.getD "", method := form.method.getD "POST",
             fields := st.1, hidden_fields := st.2 }

end SessionScraper

/-- The `name` attributes present among a form's inputs, in order. -/
def inputNames (inputs : List InputEl) : List String :=
  inputs.filterMap (fun i => i.name)

/-- Spec-side description (§4.3): `hiddenFields` maps each named input whose
declared type is `hidden` to its current value. -/
def hiddenFieldsSpec (inputs : List InputEl) : List (String × String) :=
  inputs.filterMap (fun i =>
    match i.name with
    | some n =>
      if i.typ.getD "text" = "hidden" then some (n, i.value.getD "") else none
    | none => none)

/-- Spec-side description (§4.3): `visibleFields` records each other named
input's declared type and current value. -/
def visibleFieldsSpec (inputs : List InputEl) : List (String × String × String) :=
  inputs.filterMap (fun i =>
    match i.name with
    | some n =>
      if i.typ.getD "text" = "hidden" then none
      else some (n, i.typ.getD "text", i.value.getD "")
    | none => none)

theorem dictInsert_of_fresh {β : Type} (m : List (String × β)) (k : String) (v : β)
    (h : ∀ p ∈ m, p.1 ≠ k) : dictInsert m k v = m ++ [(k, v)] := by
  induction m with
  | nil => rfl
  | cons p rest ih =>
    unfold dictInsert
    rw [if_neg (h p (by simp))]
    rw [ih (fun q hq => h q (by simp [hq]))]
    rfl

open SessionScraper in
theorem foldl_procInput (inputs : List InputEl)
    (f0 : List (String × String × String)) (h0 : List (String × String))
    (hdisj : ∀ n ∈ inputNames inputs, (∀ p ∈ f0, p.1 ≠ n) ∧ (∀ p ∈ h0, p.1 ≠ n))
    (hnd : (inputNames inputs).Nodup) :
    inputs.foldl procInput (f0, h0) =
      (f0 ++ visibleFieldsSpec inputs, h0 ++ hiddenFieldsSpec inputs) := by
  induction inputs generalizing f0 h0 with
  | nil => simp [visibleFieldsSpec, hiddenFieldsSpec]
  | cons i rest ih =>
    rcases hn : i.name with _ | n
    · have hstep : procInput (f0, h0) i = (f0, h0) := by
        unfold procInput
        rw [hn]
      have hnames : inputNames (i :: rest) = inputNames rest := by
        unfold inputNames
        simp [hn]
      rw [List.foldl_cons, hstep,
        ih f0 h0 (by rw [hnames] at hdisj; exact hdisj) (by rw [hnames] at hnd; exact hnd)]
      unfold visibleFieldsSpec hiddenFieldsSpec
      simp [hn]
    · have hnames : inputNames (i :: rest) = n :: inputNames rest := by
        unfold inputNames
        simp [hn]
      have hmem : n ∈ inputNames (i :: rest) := by
        rw [hnames]; exact List.mem_cons_self _ _
      have hndrest : (inputNames rest).Nodup := by
        rw [hnames] at hnd; exact hnd.of_cons
      have hfresh : n ∉ inputNames rest := by
        rw [hnames] at hnd
        exact (List.nodup_cons.mp hnd).1
      have hdisjrest : ∀ m ∈ inputNames rest,
          (∀ p ∈ f0, p.1 ≠ m) ∧ (∀ p ∈ h0, p.1 ≠ m) := by
        intro m hm
        exact hdisj m (by rw [hnames]; exact List.mem_cons_of_mem _ hm)
      by_cases hh : i.typ.getD "text" = "hidden"
      · have hstep : procInput (f0, h0) i = (f0, h0 ++ [(n, i.value.getD "")]) := by
          unfold procInput
          rw [hn]
          simp only [hh, if_pos rfl]
          rw [dictInsert_of_fresh _ _ _ (hdisj n hmem).2]
          simp
        rw [List.foldl_cons, hstep, ih f0 (h0 ++ [(n, i.value.getD "")])
          (by
            intro m hm
            refine ⟨(hdisjrest m hm).1, ?_⟩
            intro p hp
            rcases List.mem_append.mp hp with hp1 | hp2
            · exact (hdisjrest m hm).2 p hp1
            · have hpn : p = (n, i.value.getD "") := by simpa using hp2
              rw [hpn]
              intro hcon
              have hnm : n = m := hcon
              exact hfresh (by rw [hnm]; exact hm))
          hndrest]
        unfold visibleFieldsSpec hiddenFieldsSpec
        simp [hn, hh]
      · have hstep : procInput (f0, h0) i =
            (f0 ++ [(n, i.typ.getD "text", i.value.getD "")], h0) := by
          unfold procInput
          rw [hn]
          simp only [hh, if_neg hh]
          rw [dictInsert_of_fresh _ _ _ (hdisj n hmem).1]
          simp
        rw [List.foldl_cons, hstep, ih (f0 ++ [(n, i.typ.getD "text", i.value.getD "")]) h0
          (by
            intro m hm
            refine ⟨?_, (hdisjrest m hm).2⟩
            intro p hp
            rcases List.mem_append.mp hp with hp1 | hp2
            · exact (hdisjrest m hm).1 p hp1
            · have hpn : p = (n, i.typ.getD "text", i.value.getD "") := by simpa using hp2
              rw [hpn]
              intro hcon
              have hnm : n = m := hcon
              exact hfresh (by rw [hnm]; exact hm))
          hndrest]
        unfold visibleFieldsSpec hiddenFieldsSpec
        simp [hn, hh]

/-- A concrete login page form: a hidden CSRF token plus username and
password inputs, declared action `j_security_check`. -/
def loginPageForm : FormEl :=
  { action := some "j_security_check",
    inputs := [⟨some "csrf_token", some "hidden", some "tok123"⟩,
               ⟨some "j_username", some "text", none⟩,
               ⟨some "j_password", some "password", none⟩] }

open SessionScraper in
/-- C7: the resolver parses the first form; every named input of declared
type `hidden` lands in `hidden_fields` (name → value) and every other named
input in `fields` with its declared type (default `text`) and current
value; the returned submit path is the form's declared action; a fetch
failure or a page without a form yields the empty result, not an error; and
on the concrete CSRF login page the hidden token and action come back as
declared. -/
theorem c7_login_form_resolver (form : FormEl) (rest : List FormEl) :
    get_login_form_fields none = none ∧
    get_login_form_fields (some []) = none ∧
    ((inputNames form.inputs).Nodup →
      get_login_form_fields (some (form :: rest)) =
        some { action := form.action.getD "", method := form.method.getD "POST",
               fields := visibleFieldsSpec form.inputs,
               hidden_fields := hiddenFieldsSpec form.inputs }) ∧
    get_login_form_fields (some [loginPageForm]) =
      some { action := "j_security_check", method := "POST",
             fields := [("j_username", "text", ""), ("j_password", "password", "")],
             hidden_fields := [("csrf_token", "tok123")] } := by
  refine ⟨rfl, rfl, ?_, by decide⟩
  intro hnd
  unfold get_login_form_fields
  simp only [List.head?]
  rw [foldl_procInput form.inputs [] []
    (fun n _ => ⟨fun p hp => absurd hp (List.not_mem_nil p), fun p hp => absurd hp (List.not_mem_nil p)⟩)
    hnd]
  simp

open SessionScraper in
/-- C7 (witness): the resolver applied to the concrete CSRF login page via
the general statement. -/
theorem c7_witness :
    SessionScraper.get_login_form_fields (some [loginPageForm]) =
      some { action := loginPageForm.action.getD "",
             method := loginPageForm.method.getD "POST",
             fields := visibleFieldsSpec loginPageForm.inputs,
             hidden_fields := hiddenFieldsSpec loginPageForm.inputs } :=
  (c7_login_form_resolver loginPageForm []).2.2.1 (by decide)

namespace RateLimiter

/-- Mutable state of `RateLimiter` (`src/utils/rate_limiter.py`): fractional
token count and the monotonic-clock instant of the last refill. -/
structure State where
  tokens : ℚ
  last_update : ℚ
deriving DecidableEq, Repr

/-- `RateLimiter.__init__`: the bucket starts full (`tokens = burst`) with
`last_update` at the current clock instant. -/
def init (burst : ℚ) (now : ℚ) : State :=
  { tokens := burst, last_update := now }

/-- `RateLimiter._refill_tokens` evaluated at clock instant `now`:
`tokens = min(burst, tokens + elapsed * rate)`. -/
def refill_tokens (rate burst : ℚ) (now : ℚ) (s : State) : State :=
  { tokens := min burst (s.tokens + (now - s.last_update) * rate),
    last_update := now }

/-- One iteration of the `while True` loop of `_wait_for_token`: refill,
then consume one token and succeed if at least one is available, else keep
the refilled state and sleep. -/
def tryAcquire (rate burst : ℚ) (now : ℚ) (s : State) : Bool × State :=
  let s1 := refill_tokens rate burst now s
  if 1 ≤ s1.tokens then (true, { s1 with tokens := s1.tokens - 1 })
  else (false, s1)

/-- The whole `_wait_for_token` loop over the clock instants at which its
iterations run (the list abstracts the wakeups from `asyncio.sleep`). -/
def acquireLoop (rate burst : ℚ) (times : List ℚ) (s : State) : Bool × State :=
  match times with
  | [] => (false, s)
  | t :: ts =>
    let r := tryAcquire rate burst t s
    if r.1 then (true, r.2) else acquireLoop rate burst ts r.2

end RateLimiter

namespace RateLimiter

theorem tryAcquire_le_burst (rate burst now : ℚ) (s : State) :
    (tryAcquire rate burst now s).2.tokens ≤ burst := by
  unfold tryAcquire
  by_cases h : 1 ≤ (refill_tokens rate burst now s).tokens
  · simp only [h, if_pos]
    exact le_trans (sub_le_self _ zero_le_one) (min_le_left _ _)
  · simp only [h, if_neg, if_false]
    exact min_le_left _ _

theorem acquireLoop_le_burst (rate burst : ℚ) (times : List ℚ) :
    ∀ s : State, s.tokens ≤ burst →
      (acquireLoop rate burst times s).2.tokens ≤ burst := by
  induction times with
  | nil => exact fun s hs => hs
  | cons t ts ih =>
    intro s hs
    unfold acquireLoop
    by_cases hr : (tryAcquire rate burst t s).1 = true
    · simp only [hr, if_pos]
      exact tryAcquire_le_burst rate burst t s
    · simp only [hr, if_neg, if_false]
      exact ih _ (tryAcquire_le_burst rate burst t s)

end RateLimiter

open RateLimiter in
/-- C8: at every acquire attempt the bucket is lazily refilled as
`tokens = min(burst, tokens + elapsed_seconds * rate)`; a successful
attempt requires at least one refilled token and consumes exactly one; the
token count never exceeds `burst` (after init, after any refill, after any
attempt, and across the whole wait loop). -/
theorem c8_rate_limiter (rate burst now : ℚ) (s : State) (times : List ℚ) :
    (refill_tokens rate burst now s).tokens =
      min burst (s.tokens + (now - s.last_update) * rate) ∧
    (refill_tokens rate burst now s).tokens ≤ burst ∧
    ((tryAcquire rate burst now s).1 = true →
      1 ≤ (refill_tokens rate burst now s).tokens ∧
      (tryAcquire rate burst now s).2.tokens =
        (refill_tokens rate burst now s).tokens - 1) ∧
    (tryAcquire rate burst now s).2.tokens ≤ burst ∧
    (init burst now).tokens ≤ burst ∧
    (s.tokens ≤ burst →
      (acquireLoop rate burst times s).2.tokens ≤ burst) := by
  refine ⟨rfl, min_le_left _ _, ?_, tryAcquire_le_burst rate burst now s,
    le_refl _, acquireLoop_le_burst rate burst times s⟩
  intro h
  unfold tryAcquire at h ⊢
  by_cases h1 : 1 ≤ (refill_tokens rate burst now s).tokens
  · exact ⟨h1, by simp [h1]⟩
  · simp [h1] at h

open RateLimiter in
/-- C8 (witness): the bucket invariants at rate 2, burst 1, one second
after starting from an empty bucket. -/
theorem c8_witness :
    (refill_tokens 2 1 1 { tokens := 0, last_update := 0 }).tokens = 1 ∧
    (tryAcquire 2 1 1 { tokens := 0, last_update := 0 }).2.tokens = 1 - 1 ∧
    (acquireLoop 2 1 [1] { tokens := 0, last_update := 0 }).2.tokens ≤ 1 := by
  have h := c8_rate_limiter 2 1 1 { tokens := 0, last_update := 0 } [1]
  have hmin : (refill_tokens 2 1 1 { tokens := 0, last_update := 0 }).tokens = 1 := by
    rw [h.1]
    norm_num
  have hsucc : (tryAcquire 2 1 1 { tokens := 0, last_update := 0 }).1 = true := by
    unfold tryAcquire
    rw [if_pos (le_of_eq hmin.symm)]
  refine ⟨hmin, ?_, h.2.2.2.2.2 (by norm_num)⟩
  rw [(h.2.2.1 hsucc).2, hmin]

/-- One entry of an orchestrator run's `logs` list. -/
structure LogEntry where
  typ : String
  message : String
deriving DecidableEq, Repr

/-- What processing one iframe of the ETSLink page produces inside
`scrape_location`'s frame loop: invisible frames and frames without a
content frame are skipped, a reachable frame yields tagged grids and
tables, and a frame whose processing raises is caught by the
`except ... continue` clause. -/
inductive FrameStatus where
  | hidden
  | noContentFrame
  | ok (iframeId : String) (grids : List String) (tables : List String)
  | raises (iframeId : String) (err : String)
deriving DecidableEq, Repr

namespace ETSLink

/-- The frame loop of `ETSLinkScraper.scrape_location`: accumulate each
reachable frame's grids and tables, each tagged with `source_iframe`;
hidden, unreachable, and raising frames contribute nothing. -/
def frameLoop (frames : List FrameStatus) :
    List (String × String) × List (String × String) :=
  frames.foldl (fun acc f =>
    match f with
    | .hidden => acc
    | .noContentFrame => acc
    | .ok fid gs ts =>
      (acc.1 ++ gs.map (fun g => (g, fid)), acc.2 ++ ts.map (fun t => (t, fid)))
    | .raises _ _ => acc) ([], [])

/-- The result dict of `scrape_location` (the fields the claims touch):
location code, tagged grids and tables, and the optional `error` key. -/
structure LocResult where
  code : String
  grids : List (String × String)
  tables : List (String × String)
  err : Option String
deriving DecidableEq, Repr

/-- `ETSLinkScraper.scrape_location` for one location: an unknown code
yields an error-tagged dict without touching the page; otherwise the frame
loop runs and an exception after it (screenshot, page info) sets the
`error` key while keeping the already-collected data. -/
def scrape_location (known : Bool) (code : String) (frames : List FrameStatus)
    (postErr : Option String) : LocResult :=
  if !known then
    { code := code, grids := [], tables := [],
      err := some ("Unknown location: " ++ code) }
  else
    let fl := frameLoop frames
    { code := code, grids := fl.1, tables := fl.2, err := postErr }

/-- Environment abstracting the effects of one `scrape_etslink` run:
the outcome of the single `scraper.login()` call, what `scrape_location`
yields per location code, and an optional exception raised after the
location loop (e.g. by `storage.save`). -/
structure EtsEnv where
  loginOk : Bool
  loginErr : String
  locResult : String → LocResult
  saveErr : Option String

/-- Result of one `scrape_etslink` run, instrumented with `closeCalls`
(executions of the `finally: await scraper.close()` step) and
`loginAttempts` (executions of `scraper.login()`). -/
structure EtsRun where
  success : Bool
  logs : List LogEntry
  locations : List (String × LocResult)
  closeCalls : Nat
  loginAttempts : Nat

/-- One iteration of `for i, loc in enumerate(locations)` in
`scrape_etslink`, over the `(logs, locations-dict)` state. -/
def locStep (env : EtsEnv) (total : Nat)
    (acc : List LogEntry × List (String × ETSLink.LocResult)) (p : Nat × String) :
    List LogEntry × List (String × ETSLink.LocResult) :=
  let r := env.locResult p.2
  let e1 := LogEntry.mk "info"
    ("Scraping " ++ p.2 ++ " (" ++ toString (p.1 + 1) ++ "/" ++ toString total ++ ")...")
  let e2 := match r.err with
    | none => LogEntry.mk "success"
        ("  " ++ p.2 ++ ": Found " ++ toString r.tables.length ++ " tables")
    | some e => LogEntry.mk "error" ("  " ++ p.2 ++ ": " ++ e)
  (acc.1 ++ [e1, e2], acc.2 ++ [(p.2, r)])

/-- `scrape_etslink(username, password, locations)` from `scrape_etslink.py`:
failed login appends one error entry and returns (no extraction); otherwise
every location is scraped in order and recorded under its key, results are
saved, and `success` is set; the `finally` step always closes the scraper. -/
def scrape_etslink (env : EtsEnv) (locations : List String) : EtsRun :=
  let logs0 := [LogEntry.mk "info" "Connecting to ETSLink..."]
  if !env.loginOk then
    let msg := if env.loginErr = "" then "Login failed. Check credentials." else env.loginErr
    { success := false, logs := logs0 ++ [LogEntry.mk "error" msg],
      locations := [], closeCalls := 1, loginAttempts := 1 }
  else
    let logs1 := logs0 ++ [LogEntry.mk "success" "Login successful!",
      LogEntry.mk "info" ("Scraping " ++ toString locations.length ++ " locations...")]
    let looped := locations.enum.foldl (locStep env locations.length) (logs1, [])
    match env.saveErr with
    | some e =>
      { success := false, logs := looped.1 ++ [LogEntry.mk "error" ("Error: " ++ e)],
        locations := looped.2, closeCalls := 1, loginAttempts := 1 }
    | none =>
      { success := true,
        logs := looped.1 ++ [LogEntry.mk "success" "Data saved to data/etslink_data.json",
          LogEntry.mk "success" "Scraping complete!"],
        locations := looped.2, closeCalls := 1, loginAttempts := 1 }

end ETSLink

/-- The parsed dashboard page as `do_scrape` consumes it: title, anchor
elements, and tables (rows of cells). -/
structure T18Page where
  title : Option String := none
  anchors : List Anchor := []
  tables : List (List (List Cell)) := []
deriving DecidableEq, Repr

/-- The `data` object of a successful `do_scrape` run. -/
structure T18Data where
  title : Option String
  links : List (String × String)
  tables : List TableData
deriving DecidableEq, Repr

/-- Environment abstracting the effects of one `do_scrape` run: the login
name, the outcome of the single `scraper.login()` call, the dashboard
fetch, and an optional exception raised later in the `try` body. -/
structure T18Env where
  username : String
  loginOk : Bool
  dashboard : Option T18Page
  bodyErr : Option String

/-- Result of one `do_scrape` run, instrumented with `closeCalls`
(executions of the `finally: await scraper.close()` step) and
`loginAttempts` (executions of `scraper.login()`); `data = none` stands for
the initial placeholder data object. -/
structure T18Run where
  success : Bool
  logs : List LogEntry
  data : Option T18Data
  closeCalls : Nat
  loginAttempts : Nat

namespace DoScrape

/-- `do_scrape(username, password)` from `app.py`: failed login appends one
error entry and returns with the placeholder result; a missing dashboard
likewise; otherwise links and tables are extracted as in `extract_links` /
`extract_tables`, and an exception anywhere later in the `try` body is
caught into one error entry; the `finally` step always closes the
scraper. -/
def do_scrape (env : T18Env) : T18Run :=
  let base_url := "https://t18.tideworks.com/fc-T18"
  let logs0 := [LogEntry.mk "info" "Connecting to T18 Tideworks...",
    LogEntry.mk "success" "Found login form",
    LogEntry.mk "info" ("Logging in as " ++ env.username ++ "...")]
  if !env.loginOk then
    { success := false,
      logs := logs0 ++ [LogEntry.mk "error" "Login failed. Check your credentials."],
      data := none, closeCalls := 1, loginAttempts := 1 }
  else
    let logs1 := logs0 ++ [LogEntry.mk "success" "Login successful!",
      LogEntry.mk "info" "Fetching dashboard..."]
    match env.dashboard with
    | none =>
      { success := false,
        logs := logs1 ++ [LogEntry.mk "error" "Failed to fetch dashboard."],
        data := none, closeCalls := 1, loginAttempts := 1 }
    | some page =>
      let logs2 := logs1 ++ [LogEntry.mk "info" "Parsing page content..."]
      match env.bodyErr with
      | some e =>
        { success := false, logs := logs2 ++ [LogEntry.mk "error" ("Error: " ++ e)],
          data := none, closeCalls := 1, loginAttempts := 1 }
      | none =>
        let nav_links := extract_links base_url page.anchors
        let table_data := extract_tables page.tables
        { success := true,
          logs := logs2 ++ [LogEntry.mk "success" "Data saved to data/t18_data.json",
            LogEntry.mk "info" ("Found " ++ toString nav_links.length ++ " links and "
              ++ toString table_data.length ++ " tables"),
            LogEntry.mk "success" "Scraping complete!"],
          data := some { title := page.title, links := nav_links, tables := table_data },
          closeCalls := 1, loginAttempts := 1 }

end DoScrape

namespace ETSLink

theorem frameLoop_raises (fs1 fs2 : List FrameStatus) (fid e : String) :
    frameLoop (fs1 ++ FrameStatus.raises fid e :: fs2) = frameLoop (fs1 ++ fs2) := by
  unfold frameLoop
  rw [List.foldl_append, List.foldl_append, List.foldl_cons]

theorem locStep_snd (env : EtsEnv) (total : Nat)
    (acc : List LogEntry × List (String × LocResult)) (p : Nat × String) :
    (locStep env total acc p).2 = acc.2 ++ [(p.2, env.locResult p.2)] := rfl

theorem foldl_locStep_snd (env : EtsEnv) (total : Nat) (el : List (Nat × String)) :
    ∀ st : List LogEntry × List (String × LocResult),
      (el.foldl (locStep env total) st).2 =
        st.2 ++ el.map (fun p => (p.2, env.locResult p.2)) := by
  induction el with
  | nil => simp
  | cons p rest ih =>
    intro st
    rw [List.foldl_cons, ih, locStep_snd]
    simp

end ETSLink

open ETSLink in
/-- C4: within one target a frame whose processing raises contributes
nothing and does not abort the remaining frames (removing it leaves the
extraction unchanged); and in a run whose authentication succeeded every
requested target is scraped in order with its outcome — error-tagged or
not — recorded under that target's key, and the run-level success flag is
true regardless of per-target failures. -/
theorem c4_failure_isolation (env : EtsEnv) (locations : List String)
    (known : Bool) (code : String) (fs1 fs2 : List FrameStatus)
    (fid e : String) (postErr : Option String) :
    scrape_location known code (fs1 ++ FrameStatus.raises fid e :: fs2) postErr =
      scrape_location known code (fs1 ++ fs2) postErr ∧
    (env.loginOk = true → env.saveErr = none →
      (scrape_etslink env locations).locations =
        locations.map (fun l => (l, env.locResult l)) ∧
      (scrape_etslink env locations).success = true) := by
  constructor
  · unfold scrape_location
    rw [frameLoop_raises]
  · intro hlogin hsave
    unfold scrape_etslink
    rw [hlogin, hsave]
    simp only [Bool.not_true, Bool.false_eq_true, if_false]
    constructor
    · rw [foldl_locStep_snd]
      rw [← List.enum_map_snd locations, List.map_map]
      simp
    · trivial

/-- A concrete three-target environment whose middle target fails
extraction. -/
def c4Env : ETSLink.EtsEnv :=
  { loginOk := true, loginErr := "",
    locResult := fun l =>
      if l = "OAK" then
        { code := "OAK", grids := [], tables := [], err := some "frame crash" }
      else
        { code := l, grids := [], tables := [("t0", "frame0")], err := none },
    saveErr := none }

/-- C4 (witness): over targets LAX, OAK, TIW with OAK failing, all three
are recorded under their keys (OAK with its error tag) and the run-level
success flag is still true. -/
theorem c4_witness :
    (ETSLink.scrape_etslink c4Env ["LAX", "OAK", "TIW"]).locations =
      [("LAX", c4Env.locResult "LAX"), ("OAK", c4Env.locResult "OAK"),
       ("TIW", c4Env.locResult "TIW")] ∧
    (ETSLink.scrape_etslink c4Env ["LAX", "OAK", "TIW"]).success = true ∧
    (c4Env.locResult "OAK").err = some "frame crash" ∧
    (c4Env.locResult "TIW").err = none := by
  have h := (c4_failure_isolation c4Env ["LAX", "OAK", "TIW"]
    true "" [] [] "" "" none).2 rfl rfl
  refine ⟨?_, h.2, by decide, by decide⟩
  rw [h.1]
  rfl

open ETSLink DoScrape in
/-- C5: when login does not succeed, both orchestrators extract no target
(`locations = []` / placeholder data), append exactly one error log entry
describing the failure reason, and return `success = false`; and in every
run — whatever the outcome — `scraper.login()` is executed exactly once,
so authentication is never re-attempted. -/
theorem c5_auth_failure_aborts (env : EtsEnv) (locations : List String)
    (t18 : T18Env) :
    (env.loginOk = false →
      (scrape_etslink env locations).success = false ∧
      (scrape_etslink env locations).locations = [] ∧
      (scrape_etslink env locations).logs =
        [LogEntry.mk "info" "Connecting to ETSLink...",
         LogEntry.mk "error"
           (if env.loginErr = "" then "Login failed. Check credentials."
            else env.loginErr)] ∧
      (scrape_etslink env locations).logs.countP (fun l => l.typ == "error") = 1) ∧
    (scrape_etslink env locations).loginAttempts = 1 ∧
    (t18.loginOk = false →
      (do_scrape t18).success = false ∧
      (do_scrape t18).data = none ∧
      (do_scrape t18).logs.countP (fun l => l.typ == "error") = 1) ∧
    (do_scrape t18).loginAttempts = 1 := by
  refine ⟨?_, ?_, ?_, ?_⟩
  · intro hlogin
    unfold scrape_etslink
    rw [hlogin]
    simp only [Bool.not_false, if_true]
    refine ⟨trivial, trivial, rfl, ?_⟩
    simp [List.countP_cons]
  · unfold scrape_etslink
    cases hlogin : env.loginOk
    · simp
    · simp only [Bool.not_true, Bool.false_eq_true, if_false]
      cases hsave : env.saveErr <;> simp
  · intro hlogin
    unfold do_scrape
    rw [hlogin]
    simp only [Bool.not_false, if_true]
    refine ⟨trivial, trivial, ?_⟩
    simp [List.countP_cons]
  · unfold do_scrape
    cases hlogin : t18.loginOk
    · simp
    · simp only [Bool.not_true, Bool.false_eq_true, if_false]
      cases hdash : t18.dashboard
      · simp
      · cases hbody : t18.bodyErr <;> simp

/-- A concrete failed-login ETSLink environment. -/
def c5Env : ETSLink.EtsEnv :=
  { loginOk := false, loginErr := "Browser error: boom",
    locResult := fun l => { code := l, grids := [], tables := [], err := none },
    saveErr := none }

/-- A concrete failed-login T18 environment. -/
def c5T18Env : T18Env :=
  { username := "alice", loginOk := false, dashboard := none, bodyErr := none }

/-- C5 (witness): both orchestrators on concrete failed-login
environments. -/
theorem c5_witness :
    (ETSLink.scrape_etslink c5Env ["LAX"]).success = false ∧
    (ETSLink.scrape_etslink c5Env ["LAX"]).locations = [] ∧
    (ETSLink.scrape_etslink c5Env ["LAX"]).logs.countP
      (fun l => l.typ == "error") = 1 ∧
    (DoScrape.do_scrape c5T18Env).success = false ∧
    (DoScrape.do_scrape c5T18Env).logs.countP (fun l => l.typ == "error") = 1 := by
  have h := c5_auth_failure_aborts c5Env ["LAX"] c5T18Env
  exact ⟨(h.1 rfl).1, (h.1 rfl).2.1, (h.1 rfl).2.2.2,
    (h.2.2.1 rfl).1, (h.2.2.1 rfl).2.2⟩

open ETSLink DoScrape in
/-- C9: on every run of either orchestrator — failed login, missing
dashboard, exception in the body, or full success — the `finally`-step
session/browser close is executed exactly once before the result is
returned. -/
theorem c9_guaranteed_cleanup (env : EtsEnv) (locations : List String)
    (t18 : T18Env) :
    (scrape_etslink env locations).closeCalls = 1 ∧
    (do_scrape t18).closeCalls = 1 := by
  constructor
  · unfold scrape_etslink
    cases hlogin : env.loginOk
    · simp
    · simp only [Bool.not_true, Bool.false_eq_true, if_false]
      cases hsave : env.saveErr <;> simp
  · unfold do_scrape
    cases hlogin : t18.loginOk
    · simp
    · simp only [Bool.not_true, Bool.false_eq_true, if_false]
      cases hdash : t18.dashboard
      · simp
      · cases hbody : t18.bodyErr <;> simp
